import Mathlib

/-!
Verification of the ArduinoLog logging library (src/ArduinoLog.h).

The header defines the `Logging` class: a level-gated, printf-style
formatter writing to a `Print *` sink.  The gate and the six public
entry points (`fatal` .. `verbose`) are implemented inline in the
header (`Logging::printLevel`); the format interpreter
(`Logging::print`, `Logging::printFormat`) is only declared there, its
definition living in a translation unit not present in the sources, so
those two are modelled from the specification.

Modelling choices:
* machine integers (`int`, `long`) become `Int`; hex/binary conversions
  view the value as an unsigned 32-bit pattern (`% 2^32`);
* the sink is abstract; "output" is the list of characters written to it;
* a hook (`printfunction`, a `void (*)(Print *)`) is modelled by the
  byte sequence it writes to the sink it receives; `NULL` is `none`;
* `va_list` becomes an ordered list of tagged argument values.
-/

namespace ArduinoLog

/-- LOG_LEVEL_SILENT from ArduinoLog.h (`#define LOG_LEVEL_SILENT 0`). -/
def LOG_LEVEL_SILENT : Int := 0

/-- LOG_LEVEL_FATAL from ArduinoLog.h. -/
def LOG_LEVEL_FATAL : Int := 1

/-- LOG_LEVEL_ERROR from ArduinoLog.h. -/
def LOG_LEVEL_ERROR : Int := 2

/-- LOG_LEVEL_WARNING from ArduinoLog.h. -/
def LOG_LEVEL_WARNING : Int := 3

/-- LOG_LEVEL_DEBUG from ArduinoLog.h. -/
def LOG_LEVEL_DEBUG : Int := 4

/-- LOG_LEVEL_TRACE from ArduinoLog.h. -/
def LOG_LEVEL_TRACE : Int := 5

/-- LOG_LEVEL_VERBOSE from ArduinoLog.h. -/
def LOG_LEVEL_VERBOSE : Int := 6

/-- Abstract stand-in for the Arduino `Print` collaborator (the sink).
Only its identity matters here; the bytes written to it are tracked
separately as `List Char`. -/
structure Print where
  id : Nat

/-- One element of the variadic argument list (`va_list`), tagged with
the category the format interpreter can consume: string, character,
`int`, `long`, boolean, and floating point.  A floating-point argument
is abstracted by the decimal text the sink would receive for it. -/
inductive LogArg where
  | str : List Char → LogArg
  | chr : Char → LogArg
  | intg : Int → LogArg
  | lng : Int → LogArg
  | boolean : Bool → LogArg
  | dbl : List Char → LogArg

/-- The `Logging` class state (ArduinoLog.h lines 55-236): verbosity
threshold `_level`, the `_showLevel` flag, the sink pointer
`_logOutput`, and the two single-slot hooks (named `_prefix` and
`_suffix` in the header). -/
structure Logging where
  _level : Int
  _showLevel : Bool
  _logOutput : Option Print
  _prefixHook : Option (List Char)
  _suffixHook : Option (List Char)

/-- The default constructor `Logging()` (ArduinoLog.h lines 67-70):
`_level = LOG_LEVEL_SILENT`, `_showLevel = true`, `_logOutput = NULL`;
the hook members are declared with initializer `= NULL` (lines 212-213). -/
def defaultLogging : Logging :=
  { _level := LOG_LEVEL_SILENT
    _showLevel := true
    _logOutput := none
    _prefixHook := none
    _suffixHook := none }

/-- The level-indicator table `char levels[] = "FEWDTV"` from
`Logging::printLevel` (ArduinoLog.h line 224). -/
def levels : List Char := ['F', 'E', 'W', 'D', 'T', 'V']

/-- View an integer as its unsigned 32-bit pattern, as the base
conversions do ("negative integers are converted treating the value as
unsigned"). -/
def toUnsigned32 (i : Int) : Nat := (i % (2 ^ 32)).toNat

/-- Signed decimal rendering: decimal digits, sign if negative. -/
def intDecimal (i : Int) : List Char :=
  if i < 0 then '-' :: Nat.toDigits 10 (-i).toNat else Nat.toDigits 10 i.toNat

/-- Modelled from the spec: `Logging::printFormat(const char format,
va_list *args)` is declared at ArduinoLog.h line 211 but its definition
(the library's .cpp translation unit) is not among the sources.  Per the
spec's specifier table: `s` string verbatim, `c` one character, `d`/`l`
signed decimal, `x`/`X` lowercase hex (bare / `0x`-prefixed), `b`/`B`
binary (bare / `0b`-prefixed), `t`/`T` boolean short/long form, `D`/`F`
floating point, and any other byte after the introducer is written
verbatim consuming no argument.  A specifier finding no argument, or an
argument of the wrong category, has unspecified behaviour; this model
then writes nothing (consuming the argument if one is present). -/
def printFormat (c : Char) (args : List LogArg) : List Char × List LogArg :=
  if c = 's' then
    match args with
    | LogArg.str s :: rest => (s, rest)
    | _ :: rest => ([], rest)
    | [] => ([], [])
  else if c = 'c' then
    match args with
    | LogArg.chr ch :: rest => ([ch], rest)
    | _ :: rest => ([], rest)
    | [] => ([], [])
  else if c = 'd' then
    match args with
    | LogArg.intg i :: rest => (intDecimal i, rest)
    | _ :: rest => ([], rest)
    | [] => ([], [])
  else if c = 'l' then
    match args with
    | LogArg.lng i :: rest => (intDecimal i, rest)
    | _ :: rest => ([], rest)
    | [] => ([], [])
  else if c = 'x' then
    match args with
    | LogArg.intg i :: rest => (Nat.toDigits 16 (toUnsigned32 i), rest)
    | _ :: rest => ([], rest)
    | [] => ([], [])
  else if c = 'X' then
    match args with
    | LogArg.intg i :: rest => ('0' :: 'x' :: Nat.toDigits 16 (toUnsigned32 i), rest)
    | _ :: rest => ([], rest)
    | [] => ([], [])
  else if c = 'b' then
    match args with
    | LogArg.intg i :: rest => (Nat.toDigits 2 (toUnsigned32 i), rest)
    | _ :: rest => ([], rest)
    | [] => ([], [])
  else if c = 'B' then
    match args with
    | LogArg.intg i :: rest => ('0' :: 'b' :: Nat.toDigits 2 (toUnsigned32 i), rest)
    | _ :: rest => ([], rest)
    | [] => ([], [])
  else if c = 't' then
    match args with
    | LogArg.boolean b :: rest => (if b then ['t'] else ['f'], rest)
    | _ :: rest => ([], rest)
    | [] => ([], [])
  else if c = 'T' then
    match args with
    | LogArg.boolean b :: rest =>
      (if b then ['t', 'r', 'u', 'e'] else ['f', 'a', 'l', 's', 'e'], rest)
    | _ :: rest => ([], rest)
    | [] => ([], [])
  else if c = 'D' then
    match args with
    | LogArg.dbl s :: rest => (s, rest)
    | _ :: rest => ([], rest)
    | [] => ([], [])
  else if c = 'F' then
    match args with
    | LogArg.dbl s :: rest => (s, rest)
    | _ :: rest => ([], rest)
    | [] => ([], [])
  else
    ([c], args)

/-- Modelled from the spec: the scanning loop of `Logging::print(const
char *format, va_list args)` (declared ArduinoLog.h line 209, definition
not among the sources), reading the format string from ordinary memory.
Literal bytes are copied; the introducer `%` consumes the next byte as a
specifier dispatched to `printFormat`; a dangling introducer at the end
of the string is unspecified and this model then writes nothing. -/
def printMemGo : List Char → List LogArg → List Char
  | [], _ => []
  | c :: rest, args =>
    if c = '%' then
      match rest with
      | [] => []
      | f :: rest2 =>
        (printFormat f args).1 ++ printMemGo rest2 (printFormat f args).2
    else
      c :: printMemGo rest args

/-- Rendering of an ordinary-memory format string. -/
def printMem (fmt : List Char) (args : List LogArg) : List Char :=
  printMemGo fmt args

/-- A format string held in the alternate (flash / program-memory)
storage class: the `__FlashStringHelper *` side of the overload. -/
structure FlashStringHelper where
  bytes : List Char

/-- Modelled from the spec: the scanning loop of `Logging::print(const
__FlashStringHelper *format, va_list args)` (declared ArduinoLog.h
line 210, definition not among the sources).  Identical scan, but every
byte is fetched through the alternate-storage read primitive. -/
def printFlashGo : List Char → List LogArg → List Char
  | [], _ => []
  | c :: rest, args =>
    if c = '%' then
      match rest with
      | [] => []
      | f :: rest2 =>
        (printFormat f args).1 ++ printFlashGo rest2 (printFormat f args).2
    else
      c :: printFlashGo rest args

/-- Rendering of a flash-resident format string. -/
def printFlash (fmt : FlashStringHelper) (args : List LogArg) : List Char :=
  printFlashGo fmt.bytes args

/-- The template parameter `T` of the emit entry points: a format source
of either storage class. -/
inductive FormatSource where
  | mem : List Char → FormatSource
  | flash : FlashStringHelper → FormatSource

/-- Overload resolution of `print(msg, args)` inside `printLevel`:
dispatch on the storage class of the format source. -/
def printDispatch : FormatSource → List LogArg → List Char
  | FormatSource.mem s, args => printMem s args
  | FormatSource.flash f, args => printFlash f args

/-- `Logging::printLevel` (ArduinoLog.h lines 214-235).  If
`level <= _level`: call the prefix hook if non-null; if `_showLevel`,
print `levels[level - 1]` and then `": "`; delegate to `print`; call the
suffix hook if non-null.  Otherwise do nothing.  The result pairs the
object state after the call with the bytes written to the sink. -/
def printLevel (st : Logging) (level : Int) (msg : FormatSource)
    (args : List LogArg) : Logging × List Char :=
  if level ≤ st._level then
    let preOut : List Char := match st._prefixHook with | some p => p | none => []
    let lvlOut : List Char :=
      if st._showLevel then [levels.getD (level - 1).toNat (Char.ofNat 0), ':', ' '] else []
    let bodyOut : List Char := printDispatch msg args
    let sufOut : List Char := match st._suffixHook with | some s => s | none => []
    (st, preOut ++ lvlOut ++ bodyOut ++ sufOut)
  else
    (st, [])

/-- `Logging::fatal` (ArduinoLog.h lines 110-116): wraps `printLevel`
at `LOG_LEVEL_FATAL`. -/
def fatal (st : Logging) (msg : FormatSource) (args : List LogArg) :
    Logging × List Char :=
  printLevel st LOG_LEVEL_FATAL msg args

/-- `Logging::error` (ArduinoLog.h lines 128-134). -/
def error (st : Logging) (msg : FormatSource) (args : List LogArg) :
    Logging × List Char :=
  printLevel st LOG_LEVEL_ERROR msg args

/-- `Logging::warning` (ArduinoLog.h lines 146-152). -/
def warning (st : Logging) (msg : FormatSource) (args : List LogArg) :
    Logging × List Char :=
  printLevel st LOG_LEVEL_WARNING msg args

/-- `Logging::debug` (ArduinoLog.h lines 164-170). -/
def debug (st : Logging) (msg : FormatSource) (args : List LogArg) :
    Logging × List Char :=
  printLevel st LOG_LEVEL_DEBUG msg args

/-- `Logging::trace` (ArduinoLog.h lines 182-188). -/
def trace (st : Logging) (msg : FormatSource) (args : List LogArg) :
    Logging × List Char :=
  printLevel st LOG_LEVEL_TRACE msg args

/-- `Logging::verbose` (ArduinoLog.h lines 200-206). -/
def verbose (st : Logging) (msg : FormatSource) (args : List LogArg) :
    Logging × List Char :=
  printLevel st LOG_LEVEL_VERBOSE msg args

/-- Whether executing `printLevel` hands the `_logOutput` pointer to any
collaborator or dereferences it: every access to `_logOutput` in the
body (hook calls, the level-indicator prints, the body bytes written by
`print`) sits inside the `level <= _level` guard. -/
def sinkAccessed (st : Logging) (level : Int) (msg : FormatSource)
    (args : List LogArg) : Bool :=
  decide (level ≤ st._level) &&
    (st._prefixHook.isSome || st._showLevel ||
      !(printDispatch msg args).isEmpty || st._suffixHook.isSome)

/-- A concrete logger configuration used to instantiate the theorems:
threshold WARNING, level indicator on, both hooks set. -/
def sampleState : Logging :=
  { _level := 3
    _showLevel := true
    _logOutput := some ⟨0⟩
    _prefixHook := some ['<']
    _suffixHook := some ['>'] }

/-- A concrete ordinary-memory format source. -/
def sampleMsg : FormatSource := FormatSource.mem ['h', 'i']

/-- Helper: a failing gate makes `printLevel` return the unchanged state
and an empty output. -/
theorem printLevel_not_pass (st : Logging) (l : Int) (msg : FormatSource)
    (args : List LogArg) (h : ¬ l ≤ st._level) :
    printLevel st l msg args = (st, []) := by
  unfold printLevel
  rw [if_neg h]

/-- Helper: a passing gate makes `printLevel` return the unchanged state
and the concatenation prefix-hook output, optional level indicator,
formatted body, suffix-hook output. -/
theorem printLevel_pass (st : Logging) (l : Int) (msg : FormatSource)
    (args : List LogArg) (h : l ≤ st._level) :
    printLevel st l msg args =
      (st,
        (match st._prefixHook with | some p => p | none => []) ++
          (if st._showLevel then
            [levels.getD (l - 1).toNat (Char.ofNat 0), ':', ' ']
          else []) ++
          printDispatch msg args ++
          (match st._suffixHook with | some s => s | none => [])) := by
  unfold printLevel
  rw [if_pos h]

/-- C4: the format interpreter's conversions satisfy the round trips:
`"%d"` with `-5` renders `-5`; `"%x"` with `255` renders `ff`; `"%X"`
with `255` renders `0xff`; `"%b"` with `5` renders `101`; `"%B"` with
`5` renders `0b101`; `"%t"` with `true` renders `t`; `"%T"` with
`false` renders `false`. -/
theorem format_round_trips :
    printMem ['%', 'd'] [LogArg.intg (-5)] = ['-', '5'] ∧
    printMem ['%', 'x'] [LogArg.intg 255] = ['f', 'f'] ∧
    printMem ['%', 'X'] [LogArg.intg 255] = ['0', 'x', 'f', 'f'] ∧
    printMem ['%', 'b'] [LogArg.intg 5] = ['1', '0', '1'] ∧
    printMem ['%', 'B'] [LogArg.intg 5] = ['0', 'b', '1', '0', '1'] ∧
    printMem ['%', 't'] [LogArg.boolean true] = ['t'] ∧
    printMem ['%', 'T'] [LogArg.boolean false] = ['f', 'a', 'l', 's', 'e'] := by
  refine ⟨?_, ?_, ?_, ?_, ?_, ?_, ?_⟩ <;> decide

/-- C5: an emit call at a level strictly above the threshold is a
complete no-op: the state is unchanged and not a byte reaches the sink
(so neither hook's output appears either). -/
theorem gate_fail_noop (st : Logging) (L : Int) (msg : FormatSource)
    (args : List LogArg) (h : st._level < L) :
    printLevel st L msg args = (st, []) :=
  printLevel_not_pass st L msg args (by omega)

/-- Witness for C5 at threshold 3, level 4. -/
theorem gate_fail_noop_witness :
    sampleState._level < 4 ∧ printLevel sampleState 4 sampleMsg [] = (sampleState, []) :=
  ⟨by decide, gate_fail_noop sampleState 4 sampleMsg [] (by decide)⟩

/-- C6: any byte following the introducer `%` that is not a recognized
specifier type is written verbatim and consumes no argument; in
particular rendering `"100%%"` writes exactly `100%`. -/
theorem escape_verbatim :
    (∀ (c : Char) (args : List LogArg),
      c ∉ ['s', 'c', 'd', 'l', 'x', 'X', 'b', 'B', 't', 'T', 'D', 'F'] →
      printFormat c args = ([c], args)) ∧
    printMem ['1', '0', '0', '%', '%'] [] = ['1', '0', '0', '%'] := by
  constructor
  · intro c args h
    simp only [List.mem_cons, List.not_mem_nil, or_false, not_or] at h
    obtain ⟨h1, h2, h3, h4, h5, h6, h7, h8, h9, h10, h11, h12⟩ := h
    simp [printFormat, h1, h2, h3, h4, h5, h6, h7, h8, h9, h10, h11, h12]
  · decide

/-- Witness for C6: `%` itself is not a specifier type and is echoed. -/
theorem escape_verbatim_witness :
    printFormat '%' [LogArg.intg 7] = (['%'], [LogArg.intg 7]) :=
  escape_verbatim.1 '%' [LogArg.intg 7] (by decide)

/-- C7: a format source in ordinary memory and a byte-identical format
source in the alternate (flash) storage class render identical byte
sequences for every argument list. -/
theorem flash_mem_render_agree (bytes : List Char) (args : List LogArg) :
    printDispatch (FormatSource.flash ⟨bytes⟩) args =
      printDispatch (FormatSource.mem bytes) args := by
  simp only [printDispatch, printFlash, printMem]
  induction bytes, args using printMemGo.induct with
  | case1 args => rfl
  | case2 args => rfl
  | case3 args f rest2 ih =>
    simp [printFlashGo, printMemGo, ih]
  | case4 c rest args hc ih =>
    cases rest with
    | nil => simp [printFlashGo, printMemGo, hc]
    | cons f rest2 => simp [printFlashGo, printMemGo, hc, ih]

/-- C10: every emit call leaves the configuration state (threshold,
showLevel flag, sink, hooks) exactly as it was, whether or not the gate
passes. -/
theorem emit_preserves_config (st : Logging) (L : Int) (msg : FormatSource)
    (args : List LogArg) :
    (printLevel st L msg args).1 = st ∧
    (fatal st msg args).1 = st ∧ (error st msg args).1 = st ∧
    (warning st msg args).1 = st ∧ (debug st msg args).1 = st ∧
    (trace st msg args).1 = st ∧ (verbose st msg args).1 = st := by
  have h : ∀ l : Int, (printLevel st l msg args).1 = st := by
    intro l
    unfold printLevel
    split <;> rfl
  exact ⟨h L, h _, h _, h _, h _, h _, h _⟩

/-- A logger configuration under which a passing emit call writes zero
bytes: threshold VERBOSE, level indicator off, both hook slots null. -/
def quietState : Logging :=
  { _level := 6
    _showLevel := false
    _logOutput := some ⟨0⟩
    _prefixHook := none
    _suffixHook := none }

/-- C1 counterexample: at level 1 against `quietState` the gate passes
(1 <= 6 and the threshold is not SILENT), yet with the level indicator
off, both hooks null and an empty format string the call writes zero
bytes to the sink --- refuting the claim's "writes output if the gate
passes" direction as stated. -/
theorem gate_iff_counterexample :
    1 ≤ quietState._level ∧ quietState._level ≠ LOG_LEVEL_SILENT ∧
    (printLevel quietState 1 (FormatSource.mem []) []).2 = [] := by
  refine ⟨by decide, by decide, by decide⟩

/-- C1 (amended): at a severity level L in 1..6 (the levels the six
public entry points use), output reaches the sink only when
`L <= threshold` (which, as L is at least 1, forces the threshold to
differ from SILENT); with the level indicator enabled a passing call
does write output; and a SILENT threshold silences all six entry points
unconditionally.  The unamended "writes output if the gate passes"
direction fails when the indicator is off and the rendered line is
empty (see `quietState`). -/
theorem gate_controls_output (st : Logging) (L : Int) (msg : FormatSource)
    (args : List LogArg) (h1 : 1 ≤ L) (h6 : L ≤ 6) :
    ((printLevel st L msg args).2 ≠ [] →
      L ≤ st._level ∧ st._level ≠ LOG_LEVEL_SILENT) ∧
    (L ≤ st._level → st._showLevel = true → (printLevel st L msg args).2 ≠ []) ∧
    (st._level = LOG_LEVEL_SILENT →
      (fatal st msg args).2 = [] ∧ (error st msg args).2 = [] ∧
      (warning st msg args).2 = [] ∧ (debug st msg args).2 = [] ∧
      (trace st msg args).2 = [] ∧ (verbose st msg args).2 = []) := by
  refine ⟨?_, ?_, ?_⟩
  · intro hne
    by_cases hle : L ≤ st._level
    · refine ⟨hle, ?_⟩
      simp only [LOG_LEVEL_SILENT]
      omega
    · exact absurd (congrArg Prod.snd (printLevel_not_pass st L msg args hle)) hne
  · intro hle hshow
    rw [printLevel_pass st L msg args hle]
    simp [hshow]
  · intro h0
    have hz : st._level = 0 := h0
    have hn : ∀ l : Int, 1 ≤ l → ¬ l ≤ st._level := by
      intro l hl hle
      omega
    exact ⟨congrArg Prod.snd (printLevel_not_pass st _ msg args (hn 1 (by omega))),
      congrArg Prod.snd (printLevel_not_pass st _ msg args (hn 2 (by omega))),
      congrArg Prod.snd (printLevel_not_pass st _ msg args (hn 3 (by omega))),
      congrArg Prod.snd (printLevel_not_pass st _ msg args (hn 4 (by omega))),
      congrArg Prod.snd (printLevel_not_pass st _ msg args (hn 5 (by omega))),
      congrArg Prod.snd (printLevel_not_pass st _ msg args (hn 6 (by omega)))⟩

/-- Witness for C1 at level 3 against the sample configuration. -/
theorem gate_controls_output_witness :
    (((printLevel sampleState 3 sampleMsg []).2 ≠ [] →
      3 ≤ sampleState._level ∧ sampleState._level ≠ LOG_LEVEL_SILENT) ∧
    (3 ≤ sampleState._level → sampleState._showLevel = true →
      (printLevel sampleState 3 sampleMsg []).2 ≠ []) ∧
    (sampleState._level = LOG_LEVEL_SILENT →
      (fatal sampleState sampleMsg []).2 = [] ∧ (error sampleState sampleMsg []).2 = [] ∧
      (warning sampleState sampleMsg []).2 = [] ∧ (debug sampleState sampleMsg []).2 = [] ∧
      (trace sampleState sampleMsg []).2 = [] ∧ (verbose sampleState sampleMsg []).2 = [])) :=
  gate_controls_output sampleState 3 sampleMsg [] (by decide) (by decide)

/-- C2: on a passing emit call with the level indicator enabled, the
bytes after the prefix-hook output are exactly one character --- index
`level - 1` into the table `"FEWDTV"` --- then `':'` and `' '`, then the
formatted body; with the indicator disabled nothing is inserted there. -/
theorem showLevel_indicator (st : Logging) (L : Int) (msg : FormatSource)
    (args : List LogArg) (_h1 : 1 ≤ L) (_h6 : L ≤ 6) (hg : L ≤ st._level) :
    (st._showLevel = true →
      (printLevel st L msg args).2 =
        st._prefixHook.getD [] ++
          levels.getD (L - 1).toNat (Char.ofNat 0) :: ':' :: ' ' ::
            (printDispatch msg args ++ st._suffixHook.getD [])) ∧
    (st._showLevel = false →
      (printLevel st L msg args).2 =
        st._prefixHook.getD [] ++
          (printDispatch msg args ++ st._suffixHook.getD [])) := by
  constructor <;> intro hs <;>
    rw [printLevel_pass st L msg args hg] <;>
    cases st._prefixHook <;> cases st._suffixHook <;> simp [hs]

/-- Witness for C2 at level 3 ('W') against the sample configuration. -/
theorem showLevel_indicator_witness :
    (sampleState._showLevel = true →
      (printLevel sampleState 3 sampleMsg []).2 =
        sampleState._prefixHook.getD [] ++
          levels.getD ((3 : Int) - 1).toNat (Char.ofNat 0) :: ':' :: ' ' ::
            (printDispatch sampleMsg [] ++ sampleState._suffixHook.getD [])) ∧
    (sampleState._showLevel = false →
      (printLevel sampleState 3 sampleMsg []).2 =
        sampleState._prefixHook.getD [] ++
          (printDispatch sampleMsg [] ++ sampleState._suffixHook.getD [])) :=
  showLevel_indicator sampleState 3 sampleMsg [] (by decide) (by decide) (by decide)

/-- C3: on a passing emit call the sink receives, in order, the
prefix-hook output, the level indicator (when enabled), the formatted
body, and the suffix-hook output; a null hook slot contributes
nothing. -/
theorem hook_order (st : Logging) (L : Int) (msg : FormatSource)
    (args : List LogArg) (hg : L ≤ st._level) :
    (printLevel st L msg args).2 =
      st._prefixHook.getD [] ++
        ((if st._showLevel then
          [levels.getD (L - 1).toNat (Char.ofNat 0), ':', ' ']
        else []) ++
          (printDispatch msg args ++ st._suffixHook.getD [])) ∧
    (none : Option (List Char)).getD [] = [] := by
  refine ⟨?_, rfl⟩
  rw [printLevel_pass st L msg args hg]
  cases st._prefixHook <;> cases st._suffixHook <;> simp

/-- Witness for C3 at level 2 against the sample configuration. -/
theorem hook_order_witness :
    ((printLevel sampleState 2 sampleMsg []).2 =
      sampleState._prefixHook.getD [] ++
        ((if sampleState._showLevel then
          [levels.getD ((2 : Int) - 1).toNat (Char.ofNat 0), ':', ' ']
        else []) ++
          (printDispatch sampleMsg [] ++ sampleState._suffixHook.getD [])) ∧
    (none : Option (List Char)).getD [] = []) :=
  hook_order sampleState 2 sampleMsg [] (by decide)

/-- C8: the default-constructed logger has a SILENT threshold, the
level indicator enabled, and a null sink; any emit call made in that
state (level at least FATAL = 1) writes nothing and never hands the
null sink to a collaborator. -/
theorem default_state_safe (L : Int) (msg : FormatSource) (args : List LogArg)
    (h1 : 1 ≤ L) :
    defaultLogging._level = LOG_LEVEL_SILENT ∧
    defaultLogging._showLevel = true ∧
    defaultLogging._logOutput = none ∧
    (printLevel defaultLogging L msg args).2 = [] ∧
    sinkAccessed defaultLogging L msg args = false := by
  have hn : ¬ L ≤ defaultLogging._level := by
    have : defaultLogging._level = 0 := rfl
    omega
  refine ⟨rfl, rfl, rfl,
    congrArg Prod.snd (printLevel_not_pass defaultLogging L msg args hn), ?_⟩
  simp [sinkAccessed, hn]

/-- Witness for C8 at level 1 (FATAL). -/
theorem default_state_safe_witness :
    defaultLogging._level = LOG_LEVEL_SILENT ∧
    defaultLogging._showLevel = true ∧
    defaultLogging._logOutput = none ∧
    (printLevel defaultLogging 1 sampleMsg []).2 = [] ∧
    sinkAccessed defaultLogging 1 sampleMsg [] = false :=
  default_state_safe 1 sampleMsg [] (by decide)

/-- C9: each of the six public entry points is exactly `printLevel` at
its severity constant (1..6), and for every level in that range the
index `level - 1` into the six-character table `"FEWDTV"` is within
bounds. -/
theorem entry_levels_in_bounds (st : Logging) (msg : FormatSource)
    (args : List LogArg) :
    (fatal st msg args = printLevel st LOG_LEVEL_FATAL msg args ∧
      error st msg args = printLevel st LOG_LEVEL_ERROR msg args ∧
      warning st msg args = printLevel st LOG_LEVEL_WARNING msg args ∧
      debug st msg args = printLevel st LOG_LEVEL_DEBUG msg args ∧
      trace st msg args = printLevel st LOG_LEVEL_TRACE msg args ∧
      verbose st msg args = printLevel st LOG_LEVEL_VERBOSE msg args) ∧
    ∀ L : Int, 1 ≤ L → L ≤ 6 → (L - 1).toNat < levels.length := by
  refine ⟨⟨rfl, rfl, rfl, rfl, rfl, rfl⟩, ?_⟩
  intro L hl h6
  simp only [levels, List.length_cons, List.length_nil]
  omega

/-- Witness for C9: the WARNING level (3) indexes within the table. -/
theorem entry_levels_in_bounds_witness :
    ((3 : Int) - 1).toNat < levels.length :=
  (entry_levels_in_bounds sampleState sampleMsg []).2 3 (by decide) (by decide)

end ArduinoLog
